import Mathlib

/-!
Shallow embedding of the SIMSEA record-persistence and derived-metrics logic
from `src/simsea_app.py` (the server-rendered Flask variant) and
`src/simsea_streamlit_app.py` (the dashboard variant).

Modelling conventions:
- machine floats are idealised as rationals (`ℚ`);
- Python `date` values are integer day counts (`ℤ`), so a date difference in
  days is integer subtraction;
- the SQL `projects` table is an association list from record id to row;
- raw form input is an explicit small inductive distinguishing the cases the
  source distinguishes: missing key, empty string, a parseable value, and a
  value on which `float()` / `int()` raises.
-/

/-- A Python value fed to `percent`: a finite number (idealised as a
rational), the value `None`, or any other value, on which `float()` raises. -/
inductive PyVal where
  | num (q : ℚ)
  | vnone
  | nonnum
deriving DecidableEq

/-- Python `round(x, 2)`: round to the nearest multiple of 1/100.  Tie
behaviour is idealised to round-half-up; no claim exercises a tie. -/
def round2 (q : ℚ) : ℚ := ((100 * q + 1 / 2).floor : ℤ) / 100

/-- `percent` from `simsea_streamlit_app.py` lines 65-74: `None` denominator
returns `None`; a denominator on which `float()` raises returns `None` (the
`except` arm); a zero denominator returns `None`; otherwise the result is
`round(100.0 * float(numerator) / denominator, 2)`, where a numerator on
which `float()` raises again lands in the `except` arm. -/
def percent (numerator denominator : PyVal) : Option ℚ :=
  match denominator with
  | .vnone => none
  | .nonnum => none
  | .num d =>
    if d = 0 then none
    else
      match numerator with
      | .num n => some (round2 (100 * n / d))
      | .vnone => none
      | .nonnum => none

/-- `Rat.floor` (the executable floor from Batteries) agrees with the
`Int.floor` notation: the `FloorRing ℚ` instance is built from it. -/
theorem ratFloor_eq_intFloor (q : ℚ) : q.floor = ⌊q⌋ := rfl

/-! ## Raw form input (Flask variant)

`request.form.get(key)` returns `None` for a missing key, possibly an empty
string, or a nonempty string which `float()` / `int()` either parses or
raises on.  The four cases are modelled explicitly. -/

/-- A raw numeric form field: missing key, empty string, a string parsing to
the given rational, or a nonempty string on which `float()` raises. -/
inductive RawNum where
  | missing
  | empty
  | val (q : ℚ)
  | malformed
deriving DecidableEq

/-- A raw integer-count form field; `int()` parses to the given integer or
raises. -/
inductive RawCount where
  | missing
  | empty
  | val (n : ℤ)
  | malformed
deriving DecidableEq

/-- A raw date form field: missing/empty (falsy in Python), a string that
`datetime.fromisoformat` parses — represented by its day number — or a
nonempty string on which it raises. -/
inductive RawDate where
  | missing
  | valid (d : ℤ)
  | malformed
deriving DecidableEq

/-- The one kind of error the Flask handler can propagate while
normalising fields: an uncaught `ValueError` from `float()`/`int()`. -/
inductive ParseErr where
  | parse
deriving DecidableEq

/-- `float(form.get(key) or 0)` (e.g. `simsea_app.py` line 230): missing or
empty input falls back to `0`; a malformed string raises, and nothing in the
handler catches it. -/
def parseFloatOr0 : RawNum → Except ParseErr ℚ
  | .missing => .ok 0
  | .empty => .ok 0
  | .val q => .ok q
  | .malformed => .error .parse

/-- `int(form.get(key) or 0)` (`simsea_app.py` lines 215-217): same fallback,
same uncaught exception on a malformed string. -/
def parseIntOr0 : RawCount → Except ParseErr ℤ
  | .missing => .ok 0
  | .empty => .ok 0
  | .val n => .ok n
  | .malformed => .error .parse

/-- The coordinate normalisation of `simsea_app.py` lines 209-213:
`try: lat_f = float(lat) if lat else None  except: lat_f = None`.
Total: malformed input becomes absent, never an error. -/
def normCoord : RawNum → Option ℚ
  | .missing => none
  | .empty => none
  | .val q => some q
  | .malformed => none

/-- The duration computation of `simsea_app.py` lines 220-228: if both date
strings are truthy, parse both and subtract; any exception, or a missing
date, leaves the duration `None`. -/
def durationFlask : RawDate → RawDate → Option ℤ
  | .valid d0, .valid d1 => some (d1 - d0)
  | _, _ => none

/-- The raw form fields of the public Flask submission handler that the
verified claims depend on (numeric, count, coordinate and date fields).
Free-text fields, which are merely trimmed and stored, are omitted. -/
structure FlaskForm where
  latitud : RawNum
  longitud : RawNum
  beneficiarios_hombres : RawCount
  beneficiarios_mujeres : RawCount
  beneficiarios_glbti : RawCount
  fecha_inicio : RawDate
  fecha_finalizacion : RawDate
  monto_total_proyecto : RawNum
  meta_proyecto : RawNum
  total_meta_cumplida_acumulada : RawNum
  presupuesto_programado_total : RawNum
  presupuesto_devengado_total : RawNum
  meta_planificada_1 : RawNum
  meta_cumplida_1 : RawNum
  presupuesto_programado_1 : RawNum
  presupuesto_devengado_1 : RawNum
  meta_planificada_2 : RawNum
  meta_cumplida_2 : RawNum
  presupuesto_programado_2 : RawNum
  presupuesto_devengado_2 : RawNum
  meta_planificada_3 : RawNum
  meta_cumplida_3 : RawNum
  presupuesto_programado_3 : RawNum
  presupuesto_devengado_3 : RawNum
  meta_planificada_4 : RawNum
  meta_cumplida_4 : RawNum
  presupuesto_programado_4 : RawNum
  presupuesto_devengado_4 : RawNum
deriving DecidableEq

/-- The columns of the Flask `proyectos_simsea` INSERT that the claims are
about, with the values exactly as assembled in `simsea_app.py` lines
304-321. -/
structure FlaskRow where
  latitud : Option ℚ
  longitud : Option ℚ
  beneficiarios_hombres : ℤ
  beneficiarios_mujeres : ℤ
  beneficiarios_glbti : ℤ
  total_beneficiarios : ℤ
  duracion_proyecto : Option ℤ
  monto_total_proyecto : ℚ
  meta_proyecto : ℚ
  total_meta_cumplida_acumulada : ℚ
  porcentaje_ejecucion_fisica : Option ℚ
  presupuesto_programado_total : ℚ
  presupuesto_devengado_total : ℚ
  porcentaje_ejecucion_presupuestaria : Option ℚ
  meta_planificada_1 : ℚ
  meta_cumplida_1 : ℚ
  presupuesto_programado_1 : ℚ
  presupuesto_devengado_1 : ℚ
  meta_planificada_2 : ℚ
  meta_cumplida_2 : ℚ
  presupuesto_programado_2 : ℚ
  presupuesto_devengado_2 : ℚ
  meta_planificada_3 : ℚ
  meta_cumplida_3 : ℚ
  presupuesto_programado_3 : ℚ
  presupuesto_devengado_3 : ℚ
  meta_planificada_4 : ℚ
  meta_cumplida_4 : ℚ
  presupuesto_programado_4 : ℚ
  presupuesto_devengado_4 : ℚ
  meta_planificada_anual : ℚ
  meta_cumplida_anual : ℚ
  presupuesto_programado_anual : ℚ
  presupuesto_devengado_anual : ℚ
  created_by : Option ℤ
deriving DecidableEq

/-- The numeric values the Flask handler extracts with `float(... or 0)` /
`int(... or 0)`, named as the handler's local variables
(`simsea_app.py` lines 215-260). -/
structure FlaskParsed where
  ben_h : ℤ
  ben_m : ℤ
  ben_g : ℤ
  monto : ℚ
  meta_proyecto : ℚ
  total_meta_cumplida : ℚ
  presupuesto_programado_total : ℚ
  presupuesto_devengado_total : ℚ
  meta_p1 : ℚ
  meta_c1 : ℚ
  pres_prog_1 : ℚ
  pres_dev_1 : ℚ
  meta_p2 : ℚ
  meta_c2 : ℚ
  pres_prog_2 : ℚ
  pres_dev_2 : ℚ
  meta_p3 : ℚ
  meta_c3 : ℚ
  pres_prog_3 : ℚ
  pres_dev_3 : ℚ
  meta_p4 : ℚ
  meta_c4 : ℚ
  pres_prog_4 : ℚ
  pres_dev_4 : ℚ
deriving DecidableEq

/-- The fallible part of the Flask handler: every `float(... or 0)` /
`int(... or 0)` call, in source order.  The first malformed field aborts
the request with the uncaught `ValueError`. -/
def parseFlaskNums (form : FlaskForm) : Except ParseErr FlaskParsed := do
  let ben_h ← parseIntOr0 form.beneficiarios_hombres
  let ben_m ← parseIntOr0 form.beneficiarios_mujeres
  let ben_g ← parseIntOr0 form.beneficiarios_glbti
  let monto ← parseFloatOr0 form.monto_total_proyecto
  let meta_proyecto ← parseFloatOr0 form.meta_proyecto
  let total_meta_cumplida ← parseFloatOr0 form.total_meta_cumplida_acumulada
  let pres_prog_total ← parseFloatOr0 form.presupuesto_programado_total
  let pres_dev_total ← parseFloatOr0 form.presupuesto_devengado_total
  let meta_p1 ← parseFloatOr0 form.meta_planificada_1
  let meta_c1 ← parseFloatOr0 form.meta_cumplida_1
  let pres_prog_1 ← parseFloatOr0 form.presupuesto_programado_1
  let pres_dev_1 ← parseFloatOr0 form.presupuesto_devengado_1
  let meta_p2 ← parseFloatOr0 form.meta_planificada_2
  let meta_c2 ← parseFloatOr0 form.meta_cumplida_2
  let pres_prog_2 ← parseFloatOr0 form.presupuesto_programado_2
  let pres_dev_2 ← parseFloatOr0 form.presupuesto_devengado_2
  let meta_p3 ← parseFloatOr0 form.meta_planificada_3
  let meta_c3 ← parseFloatOr0 form.meta_cumplida_3
  let pres_prog_3 ← parseFloatOr0 form.presupuesto_programado_3
  let pres_dev_3 ← parseFloatOr0 form.presupuesto_devengado_3
  let meta_p4 ← parseFloatOr0 form.meta_planificada_4
  let meta_c4 ← parseFloatOr0 form.meta_cumplida_4
  let pres_prog_4 ← parseFloatOr0 form.presupuesto_programado_4
  let pres_dev_4 ← parseFloatOr0 form.presupuesto_devengado_4
  pure {
    ben_h := ben_h
    ben_m := ben_m
    ben_g := ben_g
    monto := monto
    meta_proyecto := meta_proyecto
    total_meta_cumplida := total_meta_cumplida
    presupuesto_programado_total := pres_prog_total
    presupuesto_devengado_total := pres_dev_total
    meta_p1 := meta_p1
    meta_c1 := meta_c1
    pres_prog_1 := pres_prog_1
    pres_dev_1 := pres_dev_1
    meta_p2 := meta_p2
    meta_c2 := meta_c2
    pres_prog_2 := pres_prog_2
    pres_dev_2 := pres_dev_2
    meta_p3 := meta_p3
    meta_c3 := meta_c3
    pres_prog_3 := pres_prog_3
    pres_dev_3 := pres_dev_3
    meta_p4 := meta_p4
    meta_c4 := meta_c4
    pres_prog_4 := pres_prog_4
    pres_dev_4 := pres_dev_4 }

/-- The values tuple of the Flask INSERT (`simsea_app.py` lines 304-321),
restricted to the modelled columns, assembled from the parsed numeric
values and the total coordinate/date normalisers. -/
def flaskRowOf (form : FlaskForm) (p : FlaskParsed) : FlaskRow :=
  { latitud := normCoord form.latitud
    longitud := normCoord form.longitud
    beneficiarios_hombres := p.ben_h
    beneficiarios_mujeres := p.ben_m
    beneficiarios_glbti := p.ben_g
    total_beneficiarios := p.ben_h + p.ben_m + p.ben_g
    duracion_proyecto := durationFlask form.fecha_inicio form.fecha_finalizacion
    monto_total_proyecto := p.monto
    meta_proyecto := p.meta_proyecto
    total_meta_cumplida_acumulada := p.total_meta_cumplida
    porcentaje_ejecucion_fisica :=
      if p.meta_proyecto = 0 then none
      else some (p.total_meta_cumplida / p.meta_proyecto * 100)
    presupuesto_programado_total := p.presupuesto_programado_total
    presupuesto_devengado_total := p.presupuesto_devengado_total
    porcentaje_ejecucion_presupuestaria :=
      if p.presupuesto_programado_total = 0 then none
      else some (p.presupuesto_devengado_total / p.presupuesto_programado_total * 100)
    meta_planificada_1 := p.meta_p1
    meta_cumplida_1 := p.meta_c1
    presupuesto_programado_1 := p.pres_prog_1
    presupuesto_devengado_1 := p.pres_dev_1
    meta_planificada_2 := p.meta_p2
    meta_cumplida_2 := p.meta_c2
    presupuesto_programado_2 := p.pres_prog_2
    presupuesto_devengado_2 := p.pres_dev_2
    meta_planificada_3 := p.meta_p3
    meta_cumplida_3 := p.meta_c3
    presupuesto_programado_3 := p.pres_prog_3
    presupuesto_devengado_3 := p.pres_dev_3
    meta_planificada_4 := p.meta_p4
    meta_cumplida_4 := p.meta_c4
    presupuesto_programado_4 := p.pres_prog_4
    presupuesto_devengado_4 := p.pres_dev_4
    meta_planificada_anual := p.meta_p1 + p.meta_p2 + p.meta_p3 + p.meta_p4
    meta_cumplida_anual := p.meta_c1 + p.meta_c2 + p.meta_c3 + p.meta_c4
    presupuesto_programado_anual := p.pres_prog_1 + p.pres_prog_2 + p.pres_prog_3 + p.pres_prog_4
    presupuesto_devengado_anual := p.pres_dev_1 + p.pres_dev_2 + p.pres_dev_3 + p.pres_dev_4
    created_by := none }

/-- The POST branch of `nuevo_proyecto_public` (`simsea_app.py` lines
198-321) restricted to the modelled columns: normalise every numeric field
(the only fallible part — coordinate and date normalisation is total, so
hoisting it into the row builder preserves the handler's semantics exactly),
then assemble the INSERT values.  The `_sess` argument stands for the
logged-in session, which the handler never consults: line 320 passes the
literal `None` for `created_by`.  A `.error` result models the uncaught
`ValueError` (HTTP 500, nothing inserted). -/
def nuevo_proyecto_public (form : FlaskForm) (_sess : Option ℤ) :
    Except ParseErr FlaskRow :=
  (parseFlaskNums form).map (flaskRowOf form)

/-! ## The dashboard (Streamlit) variant -/

/-- A value held in a date slot of the dashboard's session state: a Python
`date` (as a day number) or some other value that does not coerce to one. -/
inductive PyDate where
  | onDay (days : ℤ)
  | notDate
deriving DecidableEq

/-- The dashboard form/session values the verified claims depend on.
Beneficiary widgets are `st.number_input(min_value=0)`, hence natural
numbers; quarterly widgets are float inputs, hence rationals.  Free-text
fields not involved in any claim are omitted. -/
structure Inputs where
  usuario : String
  nombre_proyecto : String
  correo_responsable : String
  beneficiarios_hombres : ℕ
  beneficiarios_mujeres : ℕ
  beneficiarios_glbti : ℕ
  fecha_inicio : PyDate
  fecha_fin : PyDate
  meta_plan_1 : ℚ
  meta_plan_2 : ℚ
  meta_plan_3 : ℚ
  meta_plan_4 : ℚ
  meta_cum_1 : ℚ
  meta_cum_2 : ℚ
  meta_cum_3 : ℚ
  meta_cum_4 : ℚ
  pres_prog_1 : ℚ
  pres_prog_2 : ℚ
  pres_prog_3 : ℚ
  pres_prog_4 : ℚ
  pres_dev_1 : ℚ
  pres_dev_2 : ℚ
  pres_dev_3 : ℚ
  pres_dev_4 : ℚ
deriving DecidableEq

/-- The columns of the dashboard's `projects` table that the claims are
about. -/
structure Row where
  usuario : String
  nombre_proyecto : String
  beneficiarios_hombres : ℕ
  beneficiarios_mujeres : ℕ
  beneficiarios_glbti : ℕ
  total_beneficiarios : ℕ
  fecha_inicio : PyDate
  fecha_fin : PyDate
  duracion_dias : Option ℤ
  meta_plan_1 : ℚ
  meta_plan_2 : ℚ
  meta_plan_3 : ℚ
  meta_plan_4 : ℚ
  meta_cum_1 : ℚ
  meta_cum_2 : ℚ
  meta_cum_3 : ℚ
  meta_cum_4 : ℚ
  pres_prog_1 : ℚ
  pres_prog_2 : ℚ
  pres_prog_3 : ℚ
  pres_prog_4 : ℚ
  pres_dev_1 : ℚ
  pres_dev_2 : ℚ
  pres_dev_3 : ℚ
  pres_dev_4 : ℚ
  meta_plan_anual : ℚ
  meta_cum_anual : ℚ
  pres_prog_anual : ℚ
  pres_dev_anual : ℚ
deriving DecidableEq

/-- `build_row_from_inputs` (`simsea_streamlit_app.py` lines 420-496),
restricted to the modelled columns: the stored total is the sum of the
three beneficiary inputs, the stored duration is the day difference when
both slots hold dates and `None` otherwise, and each of the four annual
rollups is the sum of its four quarterly inputs. -/
def build_row_from_inputs (inp : Inputs) : Row :=
  { usuario := inp.usuario
    nombre_proyecto := inp.nombre_proyecto
    beneficiarios_hombres := inp.beneficiarios_hombres
    beneficiarios_mujeres := inp.beneficiarios_mujeres
    beneficiarios_glbti := inp.beneficiarios_glbti
    total_beneficiarios :=
      inp.beneficiarios_hombres + inp.beneficiarios_mujeres + inp.beneficiarios_glbti
    fecha_inicio := inp.fecha_inicio
    fecha_fin := inp.fecha_fin
    duracion_dias :=
      match inp.fecha_inicio, inp.fecha_fin with
      | .onDay a, .onDay b => some (b - a)
      | _, _ => none
    meta_plan_1 := inp.meta_plan_1
    meta_plan_2 := inp.meta_plan_2
    meta_plan_3 := inp.meta_plan_3
    meta_plan_4 := inp.meta_plan_4
    meta_cum_1 := inp.meta_cum_1
    meta_cum_2 := inp.meta_cum_2
    meta_cum_3 := inp.meta_cum_3
    meta_cum_4 := inp.meta_cum_4
    pres_prog_1 := inp.pres_prog_1
    pres_prog_2 := inp.pres_prog_2
    pres_prog_3 := inp.pres_prog_3
    pres_prog_4 := inp.pres_prog_4
    pres_dev_1 := inp.pres_dev_1
    pres_dev_2 := inp.pres_dev_2
    pres_dev_3 := inp.pres_dev_3
    pres_dev_4 := inp.pres_dev_4
    meta_plan_anual := inp.meta_plan_1 + inp.meta_plan_2 + inp.meta_plan_3 + inp.meta_plan_4
    meta_cum_anual := inp.meta_cum_1 + inp.meta_cum_2 + inp.meta_cum_3 + inp.meta_cum_4
    pres_prog_anual := inp.pres_prog_1 + inp.pres_prog_2 + inp.pres_prog_3 + inp.pres_prog_4
    pres_dev_anual := inp.pres_dev_1 + inp.pres_dev_2 + inp.pres_dev_3 + inp.pres_dev_4 }

/-- Whether a list of characters is free of whitespace (the `\s` class of
the email regular expression, idealised to `Char.isWhitespace`). -/
def noWs (cs : List Char) : Bool := cs.all (fun c => !c.isWhitespace)

/-- Whether a character list contains a dot at an interior position, as the
domain part `[^@\s]+\.[^@\s]+` of the email pattern demands. -/
def hasInteriorDot (cs : List Char) : Bool := ((cs.drop 1).dropLast).contains '.'

/-- `is_valid_email` (`simsea_streamlit_app.py` lines 76-78): full match of
`^[^@\s]+@[^@\s]+\.[^@\s]+$` — exactly one `@`, a nonempty whitespace-free
local part, and a whitespace-free domain with an interior dot. -/
def is_valid_email (email : String) : Bool :=
  match email.splitOn "@" with
  | [loc, dom] =>
    loc ≠ "" && noWs loc.toList && noWs dom.toList && hasInteriorDot dom.toList
  | _ => false

/-- The characters of a string with leading and trailing whitespace
removed — Python's `str.strip()`, written structurally so concrete inputs
evaluate. -/
def stripChars (cs : List Char) : List Char :=
  ((cs.dropWhile Char.isWhitespace).reverse.dropWhile Char.isWhitespace).reverse

/-- Python `str.strip()`. -/
def pyStrip (s : String) : String := ⟨stripChars s.data⟩

/-- The validation errors the save/update handlers can report. -/
inductive VErr where
  | loginRequired
  | invalidEmail
  | fechaOrden
  | fechasInvalidas
  | nombreObligatorio
deriving DecidableEq

/-- The `errs` list assembled by the save handler (`simsea_streamlit_app.py`
lines 501-515): login required, optional-email validity, end date not
before start date (non-dates raise, caught as invalid dates), mandatory
project name. -/
def validate_save (inp : Inputs) : List VErr :=
  (if inp.usuario = "" then [.loginRequired] else []) ++
  (if inp.correo_responsable ≠ "" && !is_valid_email inp.correo_responsable
   then [.invalidEmail] else []) ++
  (match inp.fecha_inicio, inp.fecha_fin with
   | .onDay a, .onDay b => if b < a then [.fechaOrden] else []
   | _, _ => [.fechasInvalidas]) ++
  (if pyStrip inp.nombre_proyecto = "" then [.nombreObligatorio] else [])

/-- The `errs` list assembled by the update handler (`simsea_streamlit_app.py`
lines 611-627); it differs from the save handler only in trimming the
username before the login check and in requiring both slots to already be
`date` instances. -/
def validate_upd (inp : Inputs) : List VErr :=
  (if pyStrip inp.usuario = "" then [.loginRequired] else []) ++
  (if inp.correo_responsable ≠ "" && !is_valid_email inp.correo_responsable
   then [.invalidEmail] else []) ++
  (match inp.fecha_inicio, inp.fecha_fin with
   | .onDay a, .onDay b => if b < a then [.fechaOrden] else []
   | _, _ => [.fechasInvalidas]) ++
  (if pyStrip inp.nombre_proyecto = "" then [.nombreObligatorio] else [])

/-- The `projects` table as an association list from id to row. -/
abbrev Store := List (ℕ × Row)

/-- `SELECT ... WHERE id = i`. -/
def dbGet (store : Store) (i : ℕ) : Option Row :=
  (List.find? (fun p => p.1 == i) store).map (fun p => p.2)

/-- The save button (`simsea_streamlit_app.py` lines 500-531): on any
validation error nothing is written; otherwise the assembled row is
inserted under a fresh id. -/
def saveStep (store : Store) (nextId : ℕ) (inp : Inputs) : Store × Bool :=
  if validate_save inp = [] then
    (store ++ [(nextId, build_row_from_inputs inp)], true)
  else
    (store, false)

/-- The row assembled by the update handler (`simsea_streamlit_app.py` lines
641-700) applied to the previously stored record: every modelled column is
reassigned from the current inputs — including the recomputed beneficiary
total and duration — except the four annual rollups, which are absent from
the UPDATE statement's column list and therefore keep their old stored
values. -/
def updateRow (old : Row) (inp : Inputs) : Row :=
  { usuario := inp.usuario
    nombre_proyecto := inp.nombre_proyecto
    beneficiarios_hombres := inp.beneficiarios_hombres
    beneficiarios_mujeres := inp.beneficiarios_mujeres
    beneficiarios_glbti := inp.beneficiarios_glbti
    total_beneficiarios :=
      inp.beneficiarios_hombres + inp.beneficiarios_mujeres + inp.beneficiarios_glbti
    fecha_inicio := inp.fecha_inicio
    fecha_fin := inp.fecha_fin
    duracion_dias :=
      match inp.fecha_inicio, inp.fecha_fin with
      | .onDay a, .onDay b => some (b - a)
      | _, _ => none
    meta_plan_1 := inp.meta_plan_1
    meta_plan_2 := inp.meta_plan_2
    meta_plan_3 := inp.meta_plan_3
    meta_plan_4 := inp.meta_plan_4
    meta_cum_1 := inp.meta_cum_1
    meta_cum_2 := inp.meta_cum_2
    meta_cum_3 := inp.meta_cum_3
    meta_cum_4 := inp.meta_cum_4
    pres_prog_1 := inp.pres_prog_1
    pres_prog_2 := inp.pres_prog_2
    pres_prog_3 := inp.pres_prog_3
    pres_prog_4 := inp.pres_prog_4
    pres_dev_1 := inp.pres_dev_1
    pres_dev_2 := inp.pres_dev_2
    pres_dev_3 := inp.pres_dev_3
    pres_dev_4 := inp.pres_dev_4
    meta_plan_anual := old.meta_plan_anual
    meta_cum_anual := old.meta_cum_anual
    pres_prog_anual := old.pres_prog_anual
    pres_dev_anual := old.pres_dev_anual }

/-- What the update handler reports. -/
inductive UpdOutcome where
  | noSelection
  | validationFailed (errs : List VErr)
  | permissionDenied
  | updated
deriving DecidableEq

/-- The ownership predicate of the spec, exactly as coded at
`simsea_streamlit_app.py` line 637 and line 740: mutation is denied iff the
actor is not admin and is not the record's stored creator. -/
def can_mutate (isAdmin : Bool) (owner actor : String) : Bool :=
  isAdmin || owner == actor

/-- The update button (`simsea_streamlit_app.py` lines 605-710): no
selection, then validation, then the permission check against the stored
`usuario` of the selected record, then the UPDATE statement (which touches
only the assigned columns and leaves a missing id unchanged). -/
def updStep (store : Store) (editId : Option ℕ) (isAdmin : Bool) (inp : Inputs) :
    Store × UpdOutcome :=
  match editId with
  | none => (store, .noSelection)
  | some i =>
    if validate_upd inp = [] then
      let owner := (dbGet store i).map (fun r => r.usuario)
      if !isAdmin && owner != some inp.usuario then
        (store, .permissionDenied)
      else
        (store.map (fun p => if p.1 = i then (i, updateRow p.2 inp) else p), .updated)
    else
      (store, .validationFailed (validate_upd inp))

/-- "Marcar registro para eliminación" (`simsea_streamlit_app.py` lines
712-720): with no selected record nothing happens; otherwise the selected
id becomes the pending deletion.  The store is untouched. -/
def markForDeletion (store : Store) (pending : Option ℕ) (editId : Option ℕ) :
    Store × Option ℕ :=
  match editId with
  | none => (store, pending)
  | some i => (store, some i)

/-- "CANCELAR ELIMINACIÓN" (`simsea_streamlit_app.py` lines 752-756): the
pending deletion is cleared; the store is untouched. -/
def cancelDeletion (store : Store) (_pending : Option ℕ) : Store × Option ℕ :=
  (store, none)

/-- "CONFIRMAR ELIMINACIÓN" (`simsea_streamlit_app.py` lines 731-751): with
a pending id, a missing record reports an error and leaves the pending id
set; a permission failure likewise leaves it set; only on an authorised
delete is the row removed and the pending id cleared. -/
def confirmDeletion (store : Store) (pending : Option ℕ) (isAdmin : Bool)
    (user : String) : Store × Option ℕ :=
  match pending with
  | none => (store, none)
  | some i =>
    match dbGet store i with
    | none => (store, some i)
    | some r =>
      if !isAdmin && r.usuario != user then
        (store, some i)
      else
        (store.filter (fun p => p.1 != i), none)

/-! ## Login flows -/

/-- A row of the `users` table (both variants): the unique username and the
stored one-way password hash. -/
structure FUser where
  username : String
  password_hash : String
deriving DecidableEq

/-- What a login attempt shows the user: a successful session or a flashed
error message. -/
inductive LoginResult where
  | success (username : String)
  | failure (msg : String)
deriving DecidableEq

/-- The Flask `login` route (`simsea_app.py` lines 344-365).  `checkHash`
stands for werkzeug's `check_password_hash`, opaque to this handler.  Both
the unknown-username branch and the wrong-password branch flash the same
message. -/
def login (checkHash : String → String → Bool) (users : List FUser)
    (username password : String) : LoginResult :=
  match List.find? (fun u => u.username == pyStrip username) users with
  | some u =>
    if checkHash u.password_hash password then .success u.username
    else .failure "Credenciales inválidas."
  | none => .failure "Credenciales inválidas."

/-- `hash_password` (`simsea_streamlit_app.py` lines 62-63): the sha256 hex
digest of a nonempty string, `None` for a falsy one.  `sha256` stands for
the digest function itself. -/
def hash_password (sha256 : String → String) (plain : String) : Option String :=
  if plain = "" then none else some (sha256 plain)

/-- The dashboard sidebar login (`simsea_streamlit_app.py` lines 244-261):
empty fields are reported as such; an unknown username is reported as
"Usuario no existe. Regístrese primero."; a known username with a
non-matching hash as "Usuario o contraseña incorrectos.". -/
def streamlit_login (sha256 : String → String) (users : List FUser)
    (username password : String) : LoginResult :=
  if username = "" || password = "" then
    .failure "Ingrese usuario y contraseña."
  else
    match List.find? (fun u => u.username == pyStrip username) users with
    | none => .failure "Usuario no existe. Regístrese primero."
    | some u =>
      match hash_password sha256 password with
      | some hp =>
        if u.password_hash == hp then .success (pyStrip username)
        else .failure "Usuario o contraseña incorrectos."
      | none => .failure "Usuario o contraseña incorrectos."

/-! ## Shared sample data and inversion helpers -/

/-- Inversion for a successful Flask submission: the numeric fields parsed
and the inserted row is the assembled values tuple. -/
theorem nuevo_ok_elim (form : FlaskForm) (sess : Option ℤ) (row : FlaskRow)
    (h : nuevo_proyecto_public form sess = .ok row) :
    ∃ p, parseFlaskNums form = .ok p ∧ row = flaskRowOf form p := by
  unfold nuevo_proyecto_public at h
  cases hp : parseFlaskNums form with
  | error e => rw [hp] at h; simp [Except.map] at h
  | ok p =>
    rw [hp] at h
    simp only [Except.map] at h
    exact ⟨p, rfl, by cases h; rfl⟩

/-- A concrete submission to the Flask form: beneficiary counts 10/8/2, a
thirty-day schedule, quarterly planned targets 5/5/5/5 and achieved
5/0/5/5, everything else left blank. -/
def form0 : FlaskForm :=
  { latitud := .val 1
    longitud := .missing
    beneficiarios_hombres := .val 10
    beneficiarios_mujeres := .val 8
    beneficiarios_glbti := .val 2
    fecha_inicio := .valid 0
    fecha_finalizacion := .valid 30
    monto_total_proyecto := .val 100
    meta_proyecto := .val 20
    total_meta_cumplida_acumulada := .val 15
    presupuesto_programado_total := .missing
    presupuesto_devengado_total := .missing
    meta_planificada_1 := .val 5
    meta_cumplida_1 := .val 5
    presupuesto_programado_1 := .missing
    presupuesto_devengado_1 := .missing
    meta_planificada_2 := .val 5
    meta_cumplida_2 := .val 0
    presupuesto_programado_2 := .missing
    presupuesto_devengado_2 := .missing
    meta_planificada_3 := .val 5
    meta_cumplida_3 := .val 5
    presupuesto_programado_3 := .missing
    presupuesto_devengado_3 := .missing
    meta_planificada_4 := .val 5
    meta_cumplida_4 := .val 5
    presupuesto_programado_4 := .missing
    presupuesto_devengado_4 := .missing }

/-- The parsed numeric values of `form0`, exactly as `parseFlaskNums`
produces them. -/
def p0 : FlaskParsed :=
  { ben_h := 10
    ben_m := 8
    ben_g := 2
    monto := 100
    meta_proyecto := 20
    total_meta_cumplida := 15
    presupuesto_programado_total := 0
    presupuesto_devengado_total := 0
    meta_p1 := 5
    meta_c1 := 5
    pres_prog_1 := 0
    pres_dev_1 := 0
    meta_p2 := 5
    meta_c2 := 0
    pres_prog_2 := 0
    pres_dev_2 := 0
    meta_p3 := 5
    meta_c3 := 5
    pres_prog_3 := 0
    pres_dev_3 := 0
    meta_p4 := 5
    meta_c4 := 5
    pres_prog_4 := 0
    pres_dev_4 := 0 }

/-- A concrete dashboard form state that passes every save/update
validation: logged-in user "ana", a named project, a 30-day schedule,
beneficiaries 10/8/2, quarterly planned targets 5/5/5/5 and achieved
5/0/5/5. -/
def inp0 : Inputs :=
  { usuario := "ana"
    nombre_proyecto := "Bosque vivo"
    correo_responsable := ""
    beneficiarios_hombres := 10
    beneficiarios_mujeres := 8
    beneficiarios_glbti := 2
    fecha_inicio := .onDay 100
    fecha_fin := .onDay 130
    meta_plan_1 := 5
    meta_plan_2 := 5
    meta_plan_3 := 5
    meta_plan_4 := 5
    meta_cum_1 := 5
    meta_cum_2 := 0
    meta_cum_3 := 5
    meta_cum_4 := 5
    pres_prog_1 := 1
    pres_prog_2 := 1
    pres_prog_3 := 1
    pres_prog_4 := 1
    pres_dev_1 := 1
    pres_dev_2 := 0
    pres_dev_3 := 0
    pres_dev_4 := 0 }

/-- A concrete stored dashboard record, created by user "ana", whose annual
rollups reflect its own (older) quarterly values. -/
def sampleRow : Row :=
  { usuario := "ana"
    nombre_proyecto := "Bosque vivo"
    beneficiarios_hombres := 1
    beneficiarios_mujeres := 1
    beneficiarios_glbti := 0
    total_beneficiarios := 2
    fecha_inicio := .onDay 0
    fecha_fin := .onDay 10
    duracion_dias := some 10
    meta_plan_1 := 1
    meta_plan_2 := 1
    meta_plan_3 := 1
    meta_plan_4 := 0
    meta_cum_1 := 1
    meta_cum_2 := 1
    meta_cum_3 := 1
    meta_cum_4 := 1
    pres_prog_1 := 1
    pres_prog_2 := 1
    pres_prog_3 := 1
    pres_prog_4 := 1
    pres_dev_1 := 1
    pres_dev_2 := 1
    pres_dev_3 := 1
    pres_dev_4 := 1
    meta_plan_anual := 3
    meta_cum_anual := 4
    pres_prog_anual := 4
    pres_dev_anual := 4 }

/-! ## C1 — the `percent` derived-metric -/

/-- C1: `percent numerator denominator` returns `round(100 × numerator /
denominator, 2)` whenever the denominator is a (finite) non-zero number,
and returns absent — not zero and not an error — when the denominator is
zero, absent, or non-numeric; in particular `percent x 0` is absent for
every `x`, `percent 0 y = 0.0` for every `y > 0`, and
`percent 50 200 = 25.0`. -/
theorem percent_spec (n d y : ℚ) (x : PyVal) (hd : d ≠ 0) (hy : 0 < y) :
    percent (.num n) (.num d) = some (round2 (100 * n / d)) ∧
    percent x (.num 0) = none ∧
    percent x .vnone = none ∧
    percent x .nonnum = none ∧
    percent (.num 0) (.num y) = some 0 ∧
    percent (.num 50) (.num 200) = some 25 := by
  refine ⟨by simp [percent, hd], by simp [percent], rfl, rfl, ?_, ?_⟩
  · have h0 : round2 0 = 0 := by
      rw [round2, ratFloor_eq_intFloor]
      norm_num
    simp [percent, hy.ne', h0]
  · rw [percent, round2, ratFloor_eq_intFloor]
    norm_num

/-- Closed instance of `percent_spec` at numerator 50, denominator 200,
positive denominator 2 and non-numeric probe value. -/
theorem percent_spec_witness :
    ((200 : ℚ) ≠ 0 ∧ (0 : ℚ) < 2) ∧
    (percent (.num 50) (.num 200) = some (round2 (100 * 50 / 200)) ∧
     percent .nonnum (.num 0) = none ∧
     percent .nonnum .vnone = none ∧
     percent .nonnum .nonnum = none ∧
     percent (.num 0) (.num 2) = some 0 ∧
     percent (.num 50) (.num 200) = some 25) :=
  ⟨⟨by norm_num, by norm_num⟩,
   percent_spec 50 200 2 .nonnum (by norm_num) (by norm_num)⟩

/-! ## C2 — total beneficiaries -/

/-- C2: on every write — dashboard create (`build_row_from_inputs`),
dashboard update (`updateRow`), Flask insert (`nuevo_proyecto_public`) —
the stored `total_beneficiarios` is recomputed as the sum of the three
beneficiary inputs, which default to 0 when missing or empty, and is never
stored independently of them. -/
theorem total_beneficiarios_recomputed (inp : Inputs) (old : Row)
    (form : FlaskForm) (sess : Option ℤ) (row : FlaskRow)
    (hok : nuevo_proyecto_public form sess = .ok row) :
    (build_row_from_inputs inp).total_beneficiarios =
      inp.beneficiarios_hombres + inp.beneficiarios_mujeres + inp.beneficiarios_glbti ∧
    (updateRow old inp).total_beneficiarios =
      inp.beneficiarios_hombres + inp.beneficiarios_mujeres + inp.beneficiarios_glbti ∧
    row.total_beneficiarios =
      row.beneficiarios_hombres + row.beneficiarios_mujeres + row.beneficiarios_glbti ∧
    parseIntOr0 RawCount.missing = .ok 0 ∧
    parseIntOr0 RawCount.empty = .ok 0 := by
  obtain ⟨p, hp, hrow⟩ := nuevo_ok_elim form sess row hok
  subst hrow
  exact ⟨rfl, rfl, rfl, rfl, rfl⟩

/-- Closed instance of `total_beneficiarios_recomputed` on the sample
submissions (beneficiaries 10/8/2). -/
theorem total_beneficiarios_recomputed_witness :
    nuevo_proyecto_public form0 none = .ok (flaskRowOf form0 p0) ∧
    ((build_row_from_inputs inp0).total_beneficiarios =
       inp0.beneficiarios_hombres + inp0.beneficiarios_mujeres + inp0.beneficiarios_glbti ∧
     (updateRow sampleRow inp0).total_beneficiarios =
       inp0.beneficiarios_hombres + inp0.beneficiarios_mujeres + inp0.beneficiarios_glbti ∧
     (flaskRowOf form0 p0).total_beneficiarios =
       (flaskRowOf form0 p0).beneficiarios_hombres +
       (flaskRowOf form0 p0).beneficiarios_mujeres +
       (flaskRowOf form0 p0).beneficiarios_glbti ∧
     parseIntOr0 RawCount.missing = .ok 0 ∧
     parseIntOr0 RawCount.empty = .ok 0) :=
  ⟨rfl, total_beneficiarios_recomputed inp0 sampleRow form0 none (flaskRowOf form0 p0) rfl⟩

/-! ## C3 — stored duration -/

/-- C3: in both variants the stored duration equals end − start in days
when both dates are present and well-formed, and is absent — not zero —
when either date is missing or malformed. -/
theorem duracion_spec (a b : ℤ) (fi ff : RawDate) (inp : Inputs)
    (form : FlaskForm) (sess : Option ℤ) (row : FlaskRow)
    (hok : nuevo_proyecto_public form sess = .ok row) :
    durationFlask (.valid a) (.valid b) = some (b - a) ∧
    (fi = RawDate.missing ∨ fi = RawDate.malformed ∨
       ff = RawDate.missing ∨ ff = RawDate.malformed →
      durationFlask fi ff = none) ∧
    row.duracion_proyecto = durationFlask form.fecha_inicio form.fecha_finalizacion ∧
    (inp.fecha_inicio = PyDate.onDay a → inp.fecha_fin = PyDate.onDay b →
      (build_row_from_inputs inp).duracion_dias = some (b - a)) ∧
    (inp.fecha_inicio = PyDate.notDate ∨ inp.fecha_fin = PyDate.notDate →
      (build_row_from_inputs inp).duracion_dias = none) := by
  obtain ⟨p, hp, hrow⟩ := nuevo_ok_elim form sess row hok
  subst hrow
  refine ⟨rfl, ?_, rfl, ?_, ?_⟩
  · rintro (rfl | rfl | rfl | rfl)
    · cases ff <;> rfl
    · cases ff <;> rfl
    · cases fi <;> rfl
    · cases fi <;> rfl
  · intro h1 h2
    simp [build_row_from_inputs, h1, h2]
  · rintro (h | h)
    · cases hf : inp.fecha_fin <;> simp [build_row_from_inputs, h, hf]
    · cases hf : inp.fecha_inicio <;> simp [build_row_from_inputs, h, hf]

/-- Closed instance of `duracion_spec`: the 30-day sample schedules and a
missing start date. -/
theorem duracion_spec_witness :
    nuevo_proyecto_public form0 none = .ok (flaskRowOf form0 p0) ∧
    (durationFlask (.valid 100) (.valid 130) = some (130 - 100) ∧
     (RawDate.missing = RawDate.missing ∨ RawDate.missing = RawDate.malformed ∨
        RawDate.valid 5 = RawDate.missing ∨ RawDate.valid 5 = RawDate.malformed →
       durationFlask RawDate.missing (RawDate.valid 5) = none) ∧
     (flaskRowOf form0 p0).duracion_proyecto =
       durationFlask form0.fecha_inicio form0.fecha_finalizacion ∧
     (inp0.fecha_inicio = PyDate.onDay 100 → inp0.fecha_fin = PyDate.onDay 130 →
       (build_row_from_inputs inp0).duracion_dias = some (130 - 100)) ∧
     (inp0.fecha_inicio = PyDate.notDate ∨ inp0.fecha_fin = PyDate.notDate →
       (build_row_from_inputs inp0).duracion_dias = none)) :=
  ⟨rfl, duracion_spec 100 130 RawDate.missing (RawDate.valid 5) inp0 form0 none
     (flaskRowOf form0 p0) rfl⟩

/-! ## C4 — end date before start date is rejected -/

/-- C4: in the dashboard variant, every create or update attempt whose end
date is strictly before its start date is rejected with the date-order
validation error and nothing is persisted; a record with end ≥ start passes
this date check. -/
theorem date_order_guard (store : Store) (nextId editId : ℕ) (isAdmin : Bool)
    (inp : Inputs) (a b : ℤ)
    (hfi : inp.fecha_inicio = PyDate.onDay a) (hff : inp.fecha_fin = PyDate.onDay b) :
    (b < a →
      VErr.fechaOrden ∈ validate_save inp ∧
      saveStep store nextId inp = (store, false) ∧
      VErr.fechaOrden ∈ validate_upd inp ∧
      updStep store (some editId) isAdmin inp =
        (store, UpdOutcome.validationFailed (validate_upd inp))) ∧
    (a ≤ b →
      VErr.fechaOrden ∉ validate_save inp ∧
      VErr.fechaOrden ∉ validate_upd inp) := by
  constructor
  · intro hlt
    have hmem_s : VErr.fechaOrden ∈ validate_save inp := by
      rw [validate_save, hfi, hff]
      simp [hlt]
    have hmem_u : VErr.fechaOrden ∈ validate_upd inp := by
      rw [validate_upd, hfi, hff]
      simp [hlt]
    refine ⟨hmem_s, ?_, hmem_u, ?_⟩
    · rw [saveStep, if_neg (List.ne_nil_of_mem hmem_s)]
    · simp only [updStep]
      rw [if_neg (List.ne_nil_of_mem hmem_u)]
  · intro hle
    have hlt : ¬ b < a := not_lt.mpr hle
    constructor
    · rw [validate_save, hfi, hff]
      simp [hlt, List.mem_append]
    · rw [validate_upd, hfi, hff]
      simp [hlt, List.mem_append]

/-- The sample dashboard inputs with the schedule reversed: start on day
10, end on day 5. -/
def inpBad : Inputs :=
  { inp0 with fecha_inicio := .onDay 10, fecha_fin := .onDay 5 }

/-- Closed instance of `date_order_guard` on the reversed schedule. -/
theorem date_order_guard_witness :
    (inpBad.fecha_inicio = PyDate.onDay 10 ∧ inpBad.fecha_fin = PyDate.onDay 5) ∧
    (((5 : ℤ) < 10 →
       VErr.fechaOrden ∈ validate_save inpBad ∧
       saveStep [] 1 inpBad = ([], false) ∧
       VErr.fechaOrden ∈ validate_upd inpBad ∧
       updStep [] (some 7) false inpBad =
         ([], UpdOutcome.validationFailed (validate_upd inpBad))) ∧
     ((10 : ℤ) ≤ 5 →
       VErr.fechaOrden ∉ validate_save inpBad ∧
       VErr.fechaOrden ∉ validate_upd inpBad)) :=
  ⟨⟨rfl, rfl⟩, date_order_guard [] 1 7 false inpBad 10 5 rfl rfl⟩

/-! ## C5 — login failure messages -/

/-- C5 counterexample: the dashboard login reports an unknown username with
a different message than a wrong password for an existing username, so a
failed attempt does reveal which one happened.  (The digest function is
instantiated with the identity; the two branches' messages do not depend on
it.) -/
theorem streamlit_login_reveals_user_existence :
    streamlit_login id [{ username := "alice", password_hash := id "secreta" }]
        "bob" "pw" = .failure "Usuario no existe. Regístrese primero." ∧
    streamlit_login id [{ username := "alice", password_hash := id "secreta" }]
        "alice" "wrong" = .failure "Usuario o contraseña incorrectos." ∧
    LoginResult.failure "Usuario no existe. Regístrese primero." ≠
      LoginResult.failure "Usuario o contraseña incorrectos." :=
  ⟨rfl, rfl, by decide⟩

/-- C5 (amended): in the Flask variant every failed login flashes the same
message, "Credenciales inválidas.", whether the username is unknown or the
password wrong; the dashboard variant distinguishes the two cases. -/
theorem login_failure_uniform (checkHash : String → String → Bool)
    (users : List FUser) (u1 p1 u2 p2 m1 m2 : String)
    (h1 : login checkHash users u1 p1 = .failure m1)
    (h2 : login checkHash users u2 p2 = .failure m2) :
    m1 = m2 ∧ m1 = "Credenciales inválidas." := by
  have key : ∀ u p m, login checkHash users u p = .failure m →
      m = "Credenciales inválidas." := by
    intro u p m h
    unfold login at h
    cases hf : List.find? (fun x => x.username == pyStrip u) users with
    | none =>
      rw [hf] at h
      injection h with h'
      exact h'.symm
    | some usr =>
      rw [hf] at h
      dsimp only at h
      by_cases hc : checkHash usr.password_hash p
      · rw [if_pos hc] at h
        cases h
      · rw [if_neg hc] at h
        injection h with h'
        exact h'.symm
  exact ⟨(key u1 p1 m1 h1).trans (key u2 p2 m2 h2).symm, key u1 p1 m1 h1⟩

/-- A sample hash check and user table for the Flask login. -/
def chk0 : String → String → Bool := fun stored p => stored == "h:" ++ p

/-- One registered user for the login samples. -/
def users0 : List FUser := [{ username := "alice", password_hash := "h:pw" }]

/-- Closed instance of `login_failure_uniform`: an unknown-user failure and
a wrong-password failure produce the identical flash message. -/
theorem login_failure_uniform_witness :
    (login chk0 users0 "bob" "x" = .failure "Credenciales inválidas." ∧
     login chk0 users0 "alice" "wrong" = .failure "Credenciales inválidas.") ∧
    (("Credenciales inválidas." : String) = "Credenciales inválidas." ∧
     ("Credenciales inválidas." : String) = "Credenciales inválidas.") :=
  ⟨⟨rfl, rfl⟩,
   login_failure_uniform chk0 users0 "bob" "x" "alice" "wrong"
     "Credenciales inválidas." "Credenciales inválidas." rfl rfl⟩

/-! ## C6 — ownership guard on update and delete -/

/-- C6: mutation (update or delete) of a stored record is permitted iff the
actor is admin or the actor's username equals the record's stored creator;
otherwise the handler reports a permission error and the store is
unchanged.  Stated for an update whose inputs pass validation and a
confirmed delete of an existing record. -/
theorem can_mutate_spec (isAdmin : Bool) (owner actor : String)
    (store : Store) (i : ℕ) (old : Row) (inp : Inputs) (user : String)
    (hv : validate_upd inp = []) (hget : dbGet store i = some old) :
    (can_mutate isAdmin owner actor = true ↔ (isAdmin = true ∨ actor = owner)) ∧
    (can_mutate isAdmin old.usuario inp.usuario = false →
      updStep store (some i) isAdmin inp = (store, .permissionDenied)) ∧
    (can_mutate isAdmin old.usuario inp.usuario = true →
      updStep store (some i) isAdmin inp =
        (store.map (fun p => if p.1 = i then (i, updateRow p.2 inp) else p), .updated)) ∧
    (can_mutate isAdmin old.usuario user = false →
      confirmDeletion store (some i) isAdmin user = (store, some i)) ∧
    (can_mutate isAdmin old.usuario user = true →
      confirmDeletion store (some i) isAdmin user =
        (store.filter (fun p => p.1 != i), none)) := by
  refine ⟨?_, ?_, ?_, ?_, ?_⟩
  · simp only [can_mutate, Bool.or_eq_true, beq_iff_eq]
    exact or_congr Iff.rfl eq_comm
  · intro hcm
    simp only [can_mutate, Bool.or_eq_false_iff, beq_eq_false_iff_ne] at hcm
    simp [updStep, hv, hget, hcm.1, hcm.2]
  · intro hcm
    simp only [can_mutate, Bool.or_eq_true, beq_iff_eq] at hcm
    rcases hcm with h | h
    · simp [updStep, hv, hget, h]
    · simp [updStep, hv, hget, h]
  · intro hcm
    simp only [can_mutate, Bool.or_eq_false_iff, beq_eq_false_iff_ne] at hcm
    simp [confirmDeletion, hget, hcm.1, hcm.2]
  · intro hcm
    simp only [can_mutate, Bool.or_eq_true, beq_iff_eq] at hcm
    rcases hcm with h | h
    · simp [confirmDeletion, hget, h]
    · simp [confirmDeletion, hget, h]

/-- Closed instance of `can_mutate_spec`: record 7 created by "ana";
actor "ana" (non-admin) may update it, actor "bob" (non-admin) is denied
the confirmed delete and the store is unchanged. -/
theorem can_mutate_spec_witness :
    (validate_upd inp0 = [] ∧ dbGet [(7, sampleRow)] 7 = some sampleRow) ∧
    ((can_mutate false "ana" "ana" = true ↔ (false = true ∨ "ana" = "ana")) ∧
     (can_mutate false sampleRow.usuario inp0.usuario = false →
       updStep [(7, sampleRow)] (some 7) false inp0 =
         ([(7, sampleRow)], UpdOutcome.permissionDenied)) ∧
     (can_mutate false sampleRow.usuario inp0.usuario = true →
       updStep [(7, sampleRow)] (some 7) false inp0 =
         (([(7, sampleRow)] : Store).map
            (fun p => if p.1 = 7 then (7, updateRow p.2 inp0) else p),
          UpdOutcome.updated)) ∧
     (can_mutate false sampleRow.usuario "bob" = false →
       confirmDeletion [(7, sampleRow)] (some 7) false "bob" =
         ([(7, sampleRow)], some 7)) ∧
     (can_mutate false sampleRow.usuario "bob" = true →
       confirmDeletion [(7, sampleRow)] (some 7) false "bob" =
         (([(7, sampleRow)] : Store).filter (fun p => p.1 != 7), none))) :=
  ⟨⟨by decide, rfl⟩,
   can_mutate_spec false "ana" "ana" [(7, sampleRow)] 7 sampleRow inp0 "bob"
     (by decide) rfl⟩

/-! ## C7 — two-phase deletion -/

/-- C7 counterexample: after marking record 7 for deletion, a confirm
attempt by a non-admin who is not the creator is rejected and leaves the
pending-deletion id set — the confirm step does not clear the
pending-deletion state in that case. -/
theorem confirm_denied_keeps_pending :
    markForDeletion [(7, sampleRow)] none (some 7) = ([(7, sampleRow)], some 7) ∧
    confirmDeletion [(7, sampleRow)] (some 7) false "bob" =
      ([(7, sampleRow)], some 7) ∧
    (some 7 : Option ℕ) ≠ none :=
  ⟨rfl, rfl, by decide⟩

/-- C7 (amended): deletion is two-phase.  Marking sets the pending id
without touching the store; marking then cancelling leaves the record
present (a subsequent get still succeeds) and clears the pending state; an
authorised confirm applies the delete and clears the pending state; a
denied confirm leaves both the store and the pending state unchanged. -/
theorem two_phase_delete (store : Store) (pending : Option ℕ) (i : ℕ) (r : Row)
    (isAdmin : Bool) (user : String) (hget : dbGet store i = some r) :
    markForDeletion store pending (some i) = (store, some i) ∧
    cancelDeletion (markForDeletion store pending (some i)).1
        (markForDeletion store pending (some i)).2 = (store, none) ∧
    dbGet (cancelDeletion (markForDeletion store pending (some i)).1
        (markForDeletion store pending (some i)).2).1 i = some r ∧
    (can_mutate isAdmin r.usuario user = true →
      confirmDeletion store (some i) isAdmin user =
        (store.filter (fun p => p.1 != i), none)) ∧
    (can_mutate isAdmin r.usuario user = false →
      confirmDeletion store (some i) isAdmin user = (store, some i)) := by
  refine ⟨rfl, rfl, hget, ?_, ?_⟩
  · intro hcm
    simp only [can_mutate, Bool.or_eq_true, beq_iff_eq] at hcm
    rcases hcm with h | h
    · simp [confirmDeletion, hget, h]
    · simp [confirmDeletion, hget, h]
  · intro hcm
    simp only [can_mutate, Bool.or_eq_false_iff, beq_eq_false_iff_ne] at hcm
    simp [confirmDeletion, hget, hcm.1, hcm.2]

/-- Closed instance of `two_phase_delete`: mark record 7, cancel, record 7
still present; a denied confirm by "bob" changes nothing. -/
theorem two_phase_delete_witness :
    dbGet [(7, sampleRow)] 7 = some sampleRow ∧
    (markForDeletion [(7, sampleRow)] none (some 7) = ([(7, sampleRow)], some 7) ∧
     cancelDeletion (markForDeletion [(7, sampleRow)] none (some 7)).1
         (markForDeletion [(7, sampleRow)] none (some 7)).2 =
       ([(7, sampleRow)], none) ∧
     dbGet (cancelDeletion (markForDeletion [(7, sampleRow)] none (some 7)).1
         (markForDeletion [(7, sampleRow)] none (some 7)).2).1 7 = some sampleRow ∧
     (can_mutate false sampleRow.usuario "bob" = true →
       confirmDeletion [(7, sampleRow)] (some 7) false "bob" =
         (([(7, sampleRow)] : Store).filter (fun p => p.1 != 7), none)) ∧
     (can_mutate false sampleRow.usuario "bob" = false →
       confirmDeletion [(7, sampleRow)] (some 7) false "bob" =
         ([(7, sampleRow)], some 7))) :=
  ⟨rfl, two_phase_delete [(7, sampleRow)] none 7 sampleRow false "bob" rfl⟩

/-! ## C8 — annual rollups -/

/-- C8 counterexample: an authorised dashboard update that changes the
quarterly planned targets to 5/5/5/5 leaves the stored annual rollup at its
old value 3 — the annual columns are not recomputed on update, so the
stored rollup no longer equals the sum of its quarterly inputs. -/
theorem update_keeps_stale_annual :
    updStep [(1, sampleRow)] (some 1) true inp0 =
      ([(1, updateRow sampleRow inp0)], .updated) ∧
    (updateRow sampleRow inp0).meta_plan_1 = 5 ∧
    (updateRow sampleRow inp0).meta_plan_2 = 5 ∧
    (updateRow sampleRow inp0).meta_plan_3 = 5 ∧
    (updateRow sampleRow inp0).meta_plan_4 = 5 ∧
    (updateRow sampleRow inp0).meta_plan_anual = 3 ∧
    (updateRow sampleRow inp0).meta_plan_anual ≠
      (updateRow sampleRow inp0).meta_plan_1 + (updateRow sampleRow inp0).meta_plan_2 +
      (updateRow sampleRow inp0).meta_plan_3 + (updateRow sampleRow inp0).meta_plan_4 := by
  refine ⟨rfl, rfl, rfl, rfl, rfl, rfl, ?_⟩
  simp only [updateRow, inp0, sampleRow]
  norm_num

/-- C8 (amended): on create, both variants store each annual rollup as the
pure sum of its four quarterly inputs (planned, achieved, budgeted,
disbursed); on dashboard update, however, the four annual rollup columns
are absent from the UPDATE and keep their previous stored values even when
the quarterly inputs change. -/
theorem annual_rollups (inp : Inputs) (old : Row) (form : FlaskForm)
    (sess : Option ℤ) (row : FlaskRow)
    (hok : nuevo_proyecto_public form sess = .ok row) :
    (build_row_from_inputs inp).meta_plan_anual =
      inp.meta_plan_1 + inp.meta_plan_2 + inp.meta_plan_3 + inp.meta_plan_4 ∧
    (build_row_from_inputs inp).meta_cum_anual =
      inp.meta_cum_1 + inp.meta_cum_2 + inp.meta_cum_3 + inp.meta_cum_4 ∧
    (build_row_from_inputs inp).pres_prog_anual =
      inp.pres_prog_1 + inp.pres_prog_2 + inp.pres_prog_3 + inp.pres_prog_4 ∧
    (build_row_from_inputs inp).pres_dev_anual =
      inp.pres_dev_1 + inp.pres_dev_2 + inp.pres_dev_3 + inp.pres_dev_4 ∧
    row.meta_planificada_anual =
      row.meta_planificada_1 + row.meta_planificada_2 +
      row.meta_planificada_3 + row.meta_planificada_4 ∧
    row.meta_cumplida_anual =
      row.meta_cumplida_1 + row.meta_cumplida_2 +
      row.meta_cumplida_3 + row.meta_cumplida_4 ∧
    row.presupuesto_programado_anual =
      row.presupuesto_programado_1 + row.presupuesto_programado_2 +
      row.presupuesto_programado_3 + row.presupuesto_programado_4 ∧
    row.presupuesto_devengado_anual =
      row.presupuesto_devengado_1 + row.presupuesto_devengado_2 +
      row.presupuesto_devengado_3 + row.presupuesto_devengado_4 ∧
    (updateRow old inp).meta_plan_anual = old.meta_plan_anual ∧
    (updateRow old inp).meta_cum_anual = old.meta_cum_anual ∧
    (updateRow old inp).pres_prog_anual = old.pres_prog_anual ∧
    (updateRow old inp).pres_dev_anual = old.pres_dev_anual := by
  obtain ⟨p, hp, hrow⟩ := nuevo_ok_elim form sess row hok
  subst hrow
  exact ⟨rfl, rfl, rfl, rfl, rfl, rfl, rfl, rfl, rfl, rfl, rfl, rfl⟩

/-- Closed instance of `annual_rollups` on the sample submissions
(quarterly planned 5/5/5/5, achieved 5/0/5/5). -/
theorem annual_rollups_witness :
    nuevo_proyecto_public form0 none = .ok (flaskRowOf form0 p0) ∧
    ((build_row_from_inputs inp0).meta_plan_anual =
       inp0.meta_plan_1 + inp0.meta_plan_2 + inp0.meta_plan_3 + inp0.meta_plan_4 ∧
     (build_row_from_inputs inp0).meta_cum_anual =
       inp0.meta_cum_1 + inp0.meta_cum_2 + inp0.meta_cum_3 + inp0.meta_cum_4 ∧
     (build_row_from_inputs inp0).pres_prog_anual =
       inp0.pres_prog_1 + inp0.pres_prog_2 + inp0.pres_prog_3 + inp0.pres_prog_4 ∧
     (build_row_from_inputs inp0).pres_dev_anual =
       inp0.pres_dev_1 + inp0.pres_dev_2 + inp0.pres_dev_3 + inp0.pres_dev_4 ∧
     (flaskRowOf form0 p0).meta_planificada_anual =
       (flaskRowOf form0 p0).meta_planificada_1 + (flaskRowOf form0 p0).meta_planificada_2 +
       (flaskRowOf form0 p0).meta_planificada_3 + (flaskRowOf form0 p0).meta_planificada_4 ∧
     (flaskRowOf form0 p0).meta_cumplida_anual =
       (flaskRowOf form0 p0).meta_cumplida_1 + (flaskRowOf form0 p0).meta_cumplida_2 +
       (flaskRowOf form0 p0).meta_cumplida_3 + (flaskRowOf form0 p0).meta_cumplida_4 ∧
     (flaskRowOf form0 p0).presupuesto_programado_anual =
       (flaskRowOf form0 p0).presupuesto_programado_1 +
       (flaskRowOf form0 p0).presupuesto_programado_2 +
       (flaskRowOf form0 p0).presupuesto_programado_3 +
       (flaskRowOf form0 p0).presupuesto_programado_4 ∧
     (flaskRowOf form0 p0).presupuesto_devengado_anual =
       (flaskRowOf form0 p0).presupuesto_devengado_1 +
       (flaskRowOf form0 p0).presupuesto_devengado_2 +
       (flaskRowOf form0 p0).presupuesto_devengado_3 +
       (flaskRowOf form0 p0).presupuesto_devengado_4 ∧
     (updateRow sampleRow inp0).meta_plan_anual = sampleRow.meta_plan_anual ∧
     (updateRow sampleRow inp0).meta_cum_anual = sampleRow.meta_cum_anual ∧
     (updateRow sampleRow inp0).pres_prog_anual = sampleRow.pres_prog_anual ∧
     (updateRow sampleRow inp0).pres_dev_anual = sampleRow.pres_dev_anual) :=
  ⟨rfl, annual_rollups inp0 sampleRow form0 none (flaskRowOf form0 p0) rfl⟩

/-! ## C9 — field normalisation totality -/

/-- The sample Flask submission with a non-parseable project-amount field. -/
def formBadMonto : FlaskForm :=
  { form0 with monto_total_proyecto := RawNum.malformed }

/-- C9 counterexample: a non-parseable money field does not get the
missing-input default — the `ValueError` escapes the handler, so the parse
error is propagated to the caller. -/
theorem parse_error_propagates :
    nuevo_proyecto_public formBadMonto none = .error .parse ∧
    parseFloatOr0 RawNum.malformed = .error .parse ∧
    parseFloatOr0 RawNum.missing = .ok 0 ∧
    (Except.error ParseErr.parse : Except ParseErr ℚ) ≠ Except.ok 0 :=
  ⟨rfl, rfl, rfl, fun h => Except.noConfusion h⟩

/-- C9 (amended): missing or empty count/money input defaults to 0, while
coordinates normalise to absent on missing, empty or malformed input and
the stored duration is absent whenever a date is missing or malformed
(those normalisers are total); but a malformed count or money value raises,
and the parse error is propagated to the caller. -/
theorem normalizer_defaults (q : ℚ) (fi ff : RawDate) :
    parseFloatOr0 RawNum.missing = .ok 0 ∧
    parseFloatOr0 RawNum.empty = .ok 0 ∧
    parseIntOr0 RawCount.missing = .ok 0 ∧
    parseIntOr0 RawCount.empty = .ok 0 ∧
    normCoord RawNum.missing = none ∧
    normCoord RawNum.empty = none ∧
    normCoord RawNum.malformed = none ∧
    normCoord (RawNum.val q) = some q ∧
    (fi = RawDate.missing ∨ fi = RawDate.malformed ∨
       ff = RawDate.missing ∨ ff = RawDate.malformed →
      durationFlask fi ff = none) ∧
    parseFloatOr0 RawNum.malformed = .error .parse ∧
    parseIntOr0 RawCount.malformed = .error .parse := by
  refine ⟨rfl, rfl, rfl, rfl, rfl, rfl, rfl, rfl, ?_, rfl, rfl⟩
  rintro (rfl | rfl | rfl | rfl)
  · cases ff <;> rfl
  · cases ff <;> rfl
  · cases fi <;> rfl
  · cases fi <;> rfl

/-- Closed instance of `normalizer_defaults` at coordinate value 3 and a
missing start date. -/
theorem normalizer_defaults_witness :
    parseFloatOr0 RawNum.missing = .ok 0 ∧
    parseFloatOr0 RawNum.empty = .ok 0 ∧
    parseIntOr0 RawCount.missing = .ok 0 ∧
    parseIntOr0 RawCount.empty = .ok 0 ∧
    normCoord RawNum.missing = none ∧
    normCoord RawNum.empty = none ∧
    normCoord RawNum.malformed = none ∧
    normCoord (RawNum.val 3) = some 3 ∧
    (RawDate.missing = RawDate.missing ∨ RawDate.missing = RawDate.malformed ∨
       RawDate.valid 2 = RawDate.missing ∨ RawDate.valid 2 = RawDate.malformed →
      durationFlask RawDate.missing (RawDate.valid 2) = none) ∧
    parseFloatOr0 RawNum.malformed = .error .parse ∧
    parseIntOr0 RawCount.malformed = .error .parse :=
  normalizer_defaults 3 RawDate.missing (RawDate.valid 2)

/-! ## C10 — public Flask form records have no owner -/

/-- C10: every record created through the public Flask submission form is
stored with `created_by` NULL, regardless of any logged-in session — the
handler never consults the session, so no such record has a creator the
ownership rule could match. -/
theorem created_by_always_null (form : FlaskForm) (sess : Option ℤ)
    (row : FlaskRow) (hok : nuevo_proyecto_public form sess = .ok row) :
    row.created_by = none ∧
    (∀ uid : ℤ, row.created_by ≠ some uid) ∧
    (∀ sess2 : Option ℤ,
      nuevo_proyecto_public form sess2 = nuevo_proyecto_public form sess) := by
  obtain ⟨p, hp, hrow⟩ := nuevo_ok_elim form sess row hok
  subst hrow
  exact ⟨rfl, fun uid h => Option.noConfusion h, fun s2 => rfl⟩

/-- Closed instance of `created_by_always_null` with a logged-in session
(user id 42). -/
theorem created_by_always_null_witness :
    nuevo_proyecto_public form0 (some 42) = .ok (flaskRowOf form0 p0) ∧
    ((flaskRowOf form0 p0).created_by = none ∧
     (∀ uid : ℤ, (flaskRowOf form0 p0).created_by ≠ some uid) ∧
     (∀ sess2 : Option ℤ,
       nuevo_proyecto_public form0 sess2 = nuevo_proyecto_public form0 (some 42))) :=
  ⟨rfl, created_by_always_null form0 (some 42) (flaskRowOf form0 p0) rfl⟩
